import Mathlib

/-! Shallow embedding of the validation and scoring aggregation engine of the
application-score-card repository: the aggregator in
scripts/calculate-scores.js (class ScoreCalculator) and the validator in
scripts/validate-scores.js (class ScoreValidator), together with theorems
about the aggregation and validation behaviour. -/

/-! ## Shared range tables

Both scripts define the same two tables.  Each table row is
(name, min, max); the scripts scan the rows in order. -/

/-- Success-category table SCORE_SUCCESS_MAPPING from both scripts. -/
def SCORE_SUCCESS_MAPPING : List (String × ℚ × ℚ) :=
  [("success", 80, 100), ("almost-success", 70, 79), ("partial", 50, 69),
   ("almost-failure", 30, 49), ("failure", 0, 29)]

/-- Colour table COLOR_MAPPING from both scripts. -/
def COLOR_MAPPING : List (String × ℚ × ℚ) :=
  [("Green", 70, 100), ("Yellow", 30, 69), ("Red", 0, 29)]

/-- JS Math.round: round half toward positive infinity. -/
def jsRound (q : ℚ) : ℤ := ⌊q + 1/2⌋

/-! ## Typed data model for the aggregator (ScoreCalculator)

The aggregator consumes records of the documented JSON shape.  scorePercent
is optional: none models both a JSON null and an absent field, which the
calculator's filter (scorePercent !== null && scorePercent !== undefined)
treats identically.  isOptional is a boolean flag whose absence is falsy. -/

/-- An Entry of an assessment record. -/
structure ScoreEntry where
  id : ℚ
  title : String
  details : String
  scoreSuccess : String
  scorePercent : Option ℚ
  isOptional : Bool
  selfAssessmentComments : Option String
deriving DecidableEq

/-- An Area of an assessment record. -/
structure AreaScore where
  id : ℚ
  title : String
  scoreEntries : List ScoreEntry
deriving DecidableEq

/-- The entityRef object.  namespc stands for the JSON field "namespace"
(a reserved word in Lean); none models an absent field. -/
structure EntityRef where
  kind : String
  name : String
  namespc : Option String
deriving DecidableEq

/-- A structurally valid assessment record, i.e. one for which
processEntityFile's structure check (data.entityRef && data.areaScores)
passes.  Optional string fields use none for an absent field. -/
structure EntityScoreData where
  entityRef : EntityRef
  generatedDateTimeUtc : Option String
  scorePercent : Option ℚ
  scoringReviewer : Option String
  scoringReviewDate : Option String
  areaScores : List AreaScore
deriving DecidableEq

/-- The per-area result of ScoreCalculator.processAreaScore. -/
structure ProcessedArea where
  id : ℚ
  title : String
  scorePercent : ℚ
  scoreEntries : List ScoreEntry
deriving DecidableEq

/-- Per-area summary in the aggregator's output: only id, title, rounded
percent, colour label and success category (raw entries are dropped). -/
structure FinalAreaScore where
  id : ℚ
  title : String
  scorePercent : ℤ
  scoreLabel : String
  scoreSuccess : String
deriving DecidableEq

/-- Entity reference in the aggregator's output. -/
structure FinalEntityRef where
  kind : String
  name : String
  namespc : Option String
deriving DecidableEq

/-- The aggregator's normalized output record (finalScore in
processEntityFile). -/
structure FinalScore where
  entityRef : FinalEntityRef
  generatedDateTimeUtc : String
  scorePercent : ℤ
  scoreLabel : String
  scoreSuccess : String
  scoringReviewer : Option String
  scoringReviewDate : Option String
  areaScores : List FinalAreaScore
deriving DecidableEq

/-! ## ScoreCalculator -/

/-- ScoreCalculator.getScoreLabel: scan COLOR_MAPPING in order for a row
with min <= percent <= max; fall back to "Red". -/
def getScoreLabel (percent : ℚ) : String :=
  match COLOR_MAPPING.find? (fun r => decide (r.2.1 ≤ percent) && decide (percent ≤ r.2.2)) with
  | some r => r.1
  | none => "Red"

/-- ScoreCalculator.getScoreSuccess: scan SCORE_SUCCESS_MAPPING in order for
a row with min <= percent <= max; fall back to "failure". -/
def getScoreSuccess (percent : ℚ) : String :=
  match SCORE_SUCCESS_MAPPING.find? (fun r => decide (r.2.1 ≤ percent) && decide (percent ≤ r.2.2)) with
  | some r => r.1
  | none => "failure"

/-- The entry filter of ScoreCalculator.processAreaScore: keep entries with
scoreSuccess !== unknown, a present scorePercent, and a falsy isOptional. -/
def scoredEntriesOf (area : AreaScore) : List ScoreEntry :=
  area.scoreEntries.filter
    (fun e => decide (e.scoreSuccess ≠ "unknown") && e.scorePercent.isSome && !e.isOptional)

/-- ScoreCalculator.processAreaScore: mean of the filtered entries'
scorePercent (reduce with initial 0, divided by the count), 0 when no entry
survives the filter; keeps the raw entries on the intermediate object. -/
def processAreaScore (area : AreaScore) : ProcessedArea :=
  let scoredEntries := scoredEntriesOf area
  let areaScore : ℚ :=
    if 0 < scoredEntries.length then
      (scoredEntries.foldl (fun sum e => sum + e.scorePercent.getD 0) 0) / (scoredEntries.length : ℚ)
    else 0
  { id := area.id, title := area.title, scorePercent := areaScore,
    scoreEntries := area.scoreEntries }

/-- ScoreCalculator.calculateOverallScore: keep areas with scorePercent > 0;
0 when none remains, otherwise the mean of the kept percents. -/
def calculateOverallScore (areaScores : List ProcessedArea) : ℚ :=
  let scoredAreas := areaScores.filter (fun a => decide (0 < a.scorePercent))
  if scoredAreas.length = 0 then 0
  else (scoredAreas.foldl (fun sum a => sum + a.scorePercent) 0) / (scoredAreas.length : ℚ)

/-- JS string truthiness: a string is truthy iff it is non-empty. -/
def strTruthy (s : String) : Bool := decide (s ≠ "")

/-- ScoreCalculator.processEntityFile on a structurally valid record.  The
argument now stands for new Date().toISOString(), the current instant used
when the record's generatedDateTimeUtc is falsy.  Spread conditions such as
(data.entityRef.namespace && data.entityRef.namespace !== 'default' && ...)
follow JS truthiness. -/
def processEntityFile (now : String) (data : EntityScoreData) : FinalScore :=
  let processedAreaScores := data.areaScores.map processAreaScore
  let overallScore := calculateOverallScore processedAreaScores
  { entityRef :=
      { kind := data.entityRef.kind
        name := data.entityRef.name
        namespc :=
          match data.entityRef.namespc with
          | some ns => if strTruthy ns && decide (ns ≠ "default") then some ns else none
          | none => none }
    generatedDateTimeUtc :=
      match data.generatedDateTimeUtc with
      | some s => if strTruthy s then s else now
      | none => now
    scorePercent := jsRound overallScore
    scoreLabel := getScoreLabel overallScore
    scoreSuccess := getScoreSuccess overallScore
    scoringReviewer :=
      match data.scoringReviewer with
      | some r => if strTruthy r then some r else none
      | none => none
    scoringReviewDate :=
      match data.scoringReviewDate with
      | some d => if strTruthy d then some d else none
      | none => none
    areaScores := processedAreaScores.map (fun area =>
      { id := area.id, title := area.title,
        scorePercent := jsRound area.scorePercent,
        scoreLabel := getScoreLabel area.scorePercent,
        scoreSuccess := getScoreSuccess area.scorePercent }) }

/-! ## JSON values and JavaScript primitives for the validator

The validator receives arbitrary parsed JSON, so it is modelled over a JSON
value type.  undefined (an absent field or a missing property of a
primitive) is modelled as (none : Option JValue).  JavaScript runtime
errors (TypeError) thrown while validating are modelled with Except. -/

/-- A parsed JSON value. -/
inductive JValue : Type where
  | null : JValue
  | bool (b : Bool) : JValue
  | num (q : ℚ) : JValue
  | str (s : String) : JValue
  | arr (elems : List JValue) : JValue
  | obj (fields : List (String × JValue)) : JValue

/-- Property lookup in an object literal; with duplicate keys the last one
wins, as in JSON.parse. -/
def lookupF (fs : List (String × JValue)) (k : String) : Option JValue :=
  fs.foldl (fun acc p => if p.1 = k then some p.2 else acc) none

/-- JS truthiness of a possibly-undefined value. -/
def truthy : Option JValue → Bool
  | none => false
  | some .null => false
  | some (.bool b) => b
  | some (.num q) => decide (q ≠ 0)
  | some (.str s) => decide (s ≠ "")
  | some (.arr _) => true
  | some (.obj _) => true

/-- Strict equality x === null. -/
def isNullV : Option JValue → Bool
  | some .null => true
  | _ => false

/-- Strict equality x === undefined. -/
def isUndefV (v : Option JValue) : Bool := v.isNone

/-- Strict equality of a value against a string literal. -/
def isStrV (v : Option JValue) (s : String) : Bool :=
  match v with
  | some (.str t) => t == s
  | _ => false

/-- typeof x === 'number'. -/
def isNumV : Option JValue → Bool
  | some (.num _) => true
  | _ => false

/-- Array.isArray. -/
def isArrayV : Option JValue → Bool
  | some (.arr _) => true
  | _ => false

/-- [...].includes(x) for a list of string literals (strict comparison). -/
def jsIncludesStr (l : List String) (v : Option JValue) : Bool :=
  l.any (fun c => isStrV v c)

/-- Property access base.k on a JValue: throws on null (TypeError), looks
up on objects, and yields undefined on other primitives and on arrays (the
validator never reads a genuine array property this way). -/
def getMember : JValue → String → Except String (Option JValue)
  | .obj fs, k => .ok (lookupF fs k)
  | .null, _ => .error "TypeError: Cannot read properties of null"
  | _, _ => .ok none

/-- The JS in operator (k in v): true or false on objects and arrays (none
of the validator's field names is an array property), TypeError on
primitives and null. -/
def jsIn (k : String) : JValue → Except String Bool
  | .obj fs => .ok (fs.any (fun p => p.1 == k))
  | .arr _ => .ok false
  | _ => .error ("TypeError: Cannot use 'in' operator to search for '" ++ k ++ "'")

/-- v.forEach(...) used on a possibly-undefined value: yields the element
list of an array, TypeError otherwise. -/
def jsElems : Option JValue → Except String (List JValue)
  | some (.arr l) => .ok l
  | some .null => .error "TypeError: Cannot read properties of null"
  | none => .error "TypeError: Cannot read properties of undefined"
  | _ => .error "TypeError: forEach is not a function"

/-- Digit-list value in base 10. -/
def digitsVal (cs : List Char) : ℕ :=
  cs.foldl (fun n c => n * 10 + (c.toNat - 48)) 0

/-- Value of one digit in bases up to 16. -/
def radixDigitVal (c : Char) : Option ℕ :=
  if c.isDigit then some (c.toNat - 48)
  else if 'a' ≤ c ∧ c ≤ 'f' then some (c.toNat - 87)
  else if 'A' ≤ c ∧ c ≤ 'F' then some (c.toNat - 55)
  else none

/-- Parse a whole digit string in base b (used for 0x / 0o / 0b forms). -/
def parseRadix (b : ℕ) (r : List Char) : Option ℚ :=
  if r = [] then none
  else (r.foldl (fun acc c =>
    match acc, radixDigitVal c with
    | some n, some d => if d < b then some (n * b + d) else none
    | _, _ => none) (some 0)).map (fun n => (n : ℚ))

/-- Parse an optional exponent suffix; the remainder after it must be
empty, otherwise the whole string is not a number. -/
def parseExp : List Char → Option ℤ
  | [] => some 0
  | 'e' :: r => parseExpTail r
  | 'E' :: r => parseExpTail r
  | _ => none
where parseExpTail (r : List Char) : Option ℤ :=
  let (sgn, r1) : ℤ × List Char :=
    match r with
    | '+' :: rr => (1, rr)
    | '-' :: rr => (-1, rr)
    | rr => (1, rr)
  let ds := r1.takeWhile Char.isDigit
  if ds = [] ∨ r1.drop ds.length ≠ [] then none
  else some (sgn * (digitsVal ds : ℤ))

/-- Parse the unsigned decimal part: digits, optional fraction, optional
exponent. -/
def parseDecCore (cs : List Char) : Option ℚ :=
  let intD := cs.takeWhile Char.isDigit
  let rest1 := cs.drop intD.length
  match rest1 with
  | '.' :: r =>
    let fracD := r.takeWhile Char.isDigit
    let rest2 := r.drop fracD.length
    if intD = [] ∧ fracD = [] then none
    else (parseExp rest2).map (fun e =>
      ((digitsVal intD : ℚ) + (digitsVal fracD : ℚ) / (10 : ℚ) ^ fracD.length) * (10 : ℚ) ^ e)
  | _ =>
    if intD = [] then none
    else (parseExp rest1).map (fun e => (digitsVal intD : ℚ) * (10 : ℚ) ^ e)

/-- JS Number(string) (the ToNumber coercion of a string): trimmed empty
string is 0, decimal / hex / octal / binary literals are parsed, everything
else is NaN (none).  The infinite values "Infinity" / "-Infinity" are also
modelled as none: the validator only compares coerced numbers against
finite bounds or a difference threshold, and every such comparison is false
both for NaN and for the one direction of infinity that could reach it. -/
def parseJsNumber (s : String) : Option ℚ :=
  let t := s.trim
  if t = "" then some 0
  else
    match t.toList with
    | '0' :: 'x' :: r => parseRadix 16 r
    | '0' :: 'X' :: r => parseRadix 16 r
    | '0' :: 'o' :: r => parseRadix 8 r
    | '0' :: 'O' :: r => parseRadix 8 r
    | '0' :: 'b' :: r => parseRadix 2 r
    | '0' :: 'B' :: r => parseRadix 2 r
    | '+' :: r => if r = "Infinity".toList then none else (parseDecCore r).map (fun q => q)
    | '-' :: r => if r = "Infinity".toList then none else (parseDecCore r).map (fun q => -q)
    | r => if r = "Infinity".toList then none else parseDecCore r

/-- JS ToNumber of a defined value (none is NaN).  Arrays coerce through
their comma-joined string form: the empty array is 0, a one-element array
coerces as its element (except booleans, whose string form is not numeric),
longer arrays contain a comma and are NaN; objects stringify to
"[object Object]" and are NaN. -/
def toNumberJ : JValue → Option ℚ
  | .null => some 0
  | .bool b => some (if b then 1 else 0)
  | .num q => some q
  | .str s => parseJsNumber s
  | .arr [] => some 0
  | .arr [.bool _] => none
  | .arr [v] => toNumberJ v
  | .arr (_ :: _ :: _) => none
  | .obj _ => none

/-- JS ToNumber of a possibly-undefined value; undefined is NaN. -/
def toNumber : Option JValue → Option ℚ
  | none => none
  | some v => toNumberJ v

/-- JS x >= q for a raw value x (ToNumber coercion; false on NaN). -/
def jsGE (v : Option JValue) (q : ℚ) : Bool :=
  match toNumber v with
  | some a => decide (q ≤ a)
  | none => false

/-- JS x <= q for a raw value x (ToNumber coercion; false on NaN). -/
def jsLE (v : Option JValue) (q : ℚ) : Bool :=
  match toNumber v with
  | some a => decide (a ≤ q)
  | none => false

/-- ScoreValidator.getScoreCategory: scan SCORE_SUCCESS_MAPPING in order
with the JS coercing comparisons; fall back to "unknown" (in particular an
undefined percent coerces to NaN, matches no row, and yields "unknown"). -/
def getScoreCategory (p : Option JValue) : String :=
  match SCORE_SUCCESS_MAPPING.find? (fun r => jsGE p r.2.1 && jsLE p r.2.2) with
  | some r => r.1
  | none => "unknown"

/-- String form of a scalar value inside a template literal.  The decimal
rendering of a non-integer number and of a nested array is approximated
(integers, strings, null, undefined and booleans — the shapes that occur in
the validated documents — render exactly as in JS). -/
def displayShallow : JValue → String
  | .null => ""
  | .bool b => if b then "true" else "false"
  | .num q => if q.den = 1 then toString q.num else toString q.num ++ "/" ++ toString q.den
  | .str s => s
  | .arr _ => ""
  | .obj _ => "[object Object]"

/-- Template-literal interpolation of a possibly-undefined value. -/
def displayVal : Option JValue → String
  | none => "undefined"
  | some .null => "null"
  | some (.bool b) => if b then "true" else "false"
  | some (.num q) => if q.den = 1 then toString q.num else toString q.num ++ "/" ++ toString q.den
  | some (.str s) => s
  | some (.arr l) => String.intercalate "," (l.map displayShallow)
  | some (.obj _) => "[object Object]"

/-- str.includes("TODO:"). -/
def strHasTODO (s : String) : Bool :=
  (List.range (s.toList.length + 1)).any
    (fun i => ("TODO:".toList).isPrefixOf (s.toList.drop i))

/-- x.toFixed(1) for the computed overall (none is NaN). -/
def toFixed1 : Option ℚ → String
  | none => "NaN"
  | some q =>
    let n : ℤ := ⌊q * 10 + 1/2⌋
    (if n < 0 then "-" else "") ++ toString (n.natAbs / 10) ++ "." ++ toString (n.natAbs % 10)

/-! ## ScoreValidator

The validator instance state is the pair of accumulated message lists
(this.errors, this.warnings); every method threads it explicitly.  Methods
that can hit a JS TypeError return Except. -/

/-- The validator instance state: accumulated errors and warnings. -/
structure VState where
  errors : List String
  warnings : List String
deriving DecidableEq

/-- The state of a freshly constructed ScoreValidator. -/
def vEmpty : VState := ⟨[], []⟩

/-- A state-threading validator step. -/
def StM : Type := VState → Except String VState

/-- ScoreValidator.addError. -/
def addErrorS (m : String) : StM := fun st =>
  .ok ⟨st.errors ++ ["❌ ERROR: " ++ m], st.warnings⟩

/-- ScoreValidator.addWarning. -/
def addWarningS (m : String) : StM := fun st =>
  .ok ⟨st.errors, st.warnings ++ ["⚠️  WARNING: " ++ m]⟩

/-- Sequencing of two validator steps (one statement after another). -/
def stSeq (f g : StM) : StM := fun st => (f st).bind g

/-- ScoreValidator.validateRequired: for each field, error when the field
is not in the object or is null or undefined; the in operator throws on a
primitive receiver. -/
def validateRequired (v : JValue) (fields : List String) : StM := fun st =>
  fields.foldlM (fun s f =>
    match jsIn f v with
    | .error e => Except.error e
    | .ok has =>
      match getMember v f with
      | .error e => Except.error e
      | .ok mv =>
        if !has || isNullV mv || isUndefV mv then
          addErrorS ("Missing required field: " ++ f) s
        else Except.ok s) st

/-- Body of ScoreValidator.validateEntityRef once the receiver is a
non-null object (or array): required kind / name, then a warning for a
truthy kind outside the known list. -/
def validateEntityRefBody (r : JValue) : StM :=
  stSeq (validateRequired r ["kind", "name"]) (fun st =>
    match getMember r "kind" with
    | .error e => Except.error e
    | .ok kv =>
      if truthy kv && !jsIncludesStr ["component", "api", "system", "resource"] kv then
        addWarningS ("Unusual entity kind: " ++ displayVal kv ++
          ". Expected one of: component, api, system, resource") st
      else Except.ok st)

/-- ScoreValidator.validateEntityRef: error and return unless the value is
truthy and of typeof object (which leaves objects and arrays). -/
def validateEntityRef (ref : Option JValue) : StM :=
  match ref with
  | some (.obj fs) => validateEntityRefBody (.obj fs)
  | some (.arr l) => validateEntityRefBody (.arr l)
  | _ => addErrorS "entityRef must be an object"

/-- ScoreValidator.validateDateTime.  new Date(x) never throws; whether the
resulting instant is valid is delegated to the oracle dOk standing for the
JS Date parser (a host primitive outside this repository). -/
def validateDateTime (dOk : Option JValue → Bool) (v : Option JValue) (fieldName : String) :
    StM := fun st =>
  if dOk v then Except.ok st else addErrorS (fieldName ++ " is not a valid ISO date") st

/-- The typeof-number check on entry.id. -/
def entryIdCheck (pfx : String) (entry : JValue) : StM := fun st =>
  match getMember entry "id" with
  | .error e => Except.error e
  | .ok idv =>
    if !isNumV idv then addErrorS (pfx ++ ".id must be a number") st else Except.ok st

/-- The scorePercent range check: when scorePercent is neither null nor
undefined, it must be a number within [0,100]. -/
def entryPercentCheck (pfx : String) (entry : JValue) : StM := fun st =>
  match getMember entry "scorePercent" with
  | .error e => Except.error e
  | .ok sp =>
    if !isNullV sp && !isUndefV sp then
      (if (match sp with
           | some (.num q) => decide (q < 0) || decide (100 < q)
           | _ => true) then
        addErrorS (pfx ++ ".scorePercent must be a number between 0-100") st
      else Except.ok st)
    else Except.ok st

/-- The scoreSuccess membership check against the six fixed categories. -/
def entrySuccessCheck (pfx : String) (entry : JValue) : StM := fun st =>
  match getMember entry "scoreSuccess" with
  | .error e => Except.error e
  | .ok ss =>
    if !jsIncludesStr ["success", "almost-success", "partial", "almost-failure",
        "failure", "unknown"] ss then
      addErrorS (pfx ++
        ".scoreSuccess must be one of: success, almost-success, partial, almost-failure, failure, unknown") st
    else Except.ok st

/-- The score-consistency check: when scorePercent !== null (an undefined
scorePercent passes this test) and scoreSuccess !== unknown, compare the
category derived from the percent with the declared one; mismatch is a
warning. -/
def entryConsistencyCheck (pfx : String) (entry : JValue) : StM := fun st =>
  match getMember entry "scorePercent", getMember entry "scoreSuccess" with
  | .error e, _ => Except.error e
  | .ok _, .error e => Except.error e
  | .ok sp, .ok ss =>
    if !isNullV sp && !isStrV ss "unknown" then
      (if !isStrV ss (getScoreCategory sp) then
        addWarningS (pfx ++ ": scorePercent (" ++ displayVal sp ++ ") suggests '" ++
          getScoreCategory sp ++ "' but scoreSuccess is '" ++ displayVal ss ++ "'") st
      else Except.ok st)
    else Except.ok st

/-- The TODO-placeholder check on selfAssessmentComments: .includes throws
on a truthy value that is neither a string nor an array. -/
def entryTodoCheck (pfx : String) (entry : JValue) : StM := fun st =>
  match getMember entry "selfAssessmentComments" with
  | .error e => Except.error e
  | .ok sac =>
    if truthy sac then
      match sac with
      | some (.str s) =>
        if strHasTODO s then
          addWarningS (pfx ++ ": Self-assessment comments contain TODO placeholder") st
        else Except.ok st
      | some (.arr l) =>
        if l.any (fun e => isStrV (some e) "TODO:") then
          addWarningS (pfx ++ ": Self-assessment comments contain TODO placeholder") st
        else Except.ok st
      | _ => Except.error "TypeError: includes is not a function"
    else Except.ok st

/-- ScoreValidator.validateScoreEntry: the five checks in source order
after the required-fields check. -/
def validateScoreEntry (pfx : String) (entry : JValue) : StM :=
  stSeq (validateRequired entry ["id", "title", "scoreSuccess", "details"])
    (stSeq (entryIdCheck pfx entry)
      (stSeq (entryPercentCheck pfx entry)
        (stSeq (entrySuccessCheck pfx entry)
          (stSeq (entryConsistencyCheck pfx entry) (entryTodoCheck pfx entry)))))

/-- The typeof-number check on area.id. -/
def areaIdCheck (idx : ℕ) (area : JValue) : StM := fun st =>
  match getMember area "id" with
  | .error e => Except.error e
  | .ok idv =>
    if !isNumV idv then
      addErrorS ("areaScores[" ++ toString idx ++ "].id must be a number") st
    else Except.ok st

/-- The scoreEntries checks of validateAreaScore: must be an array (else
error and return), must be non-empty, then each entry is validated with its
indexed prefix. -/
def areaEntriesCheck (idx : ℕ) (area : JValue) : StM := fun st =>
  match getMember area "scoreEntries" with
  | .error e => Except.error e
  | .ok sev =>
    match sev with
    | some (.arr entries) =>
      ((if entries.length = 0 then
          addErrorS ("areaScores[" ++ toString idx ++ "].scoreEntries cannot be empty") st
        else Except.ok st).bind (fun s3 =>
        entries.enum.foldlM (fun s (p : ℕ × JValue) =>
          validateScoreEntry
            ("areaScores[" ++ toString idx ++ "].scoreEntries[" ++ toString p.1 ++ "]")
            p.2 s) s3))
    | _ => addErrorS ("areaScores[" ++ toString idx ++ "].scoreEntries must be an array") st

/-- ScoreValidator.validateAreaScore. -/
def validateAreaScore (idx : ℕ) (area : JValue) : StM :=
  stSeq (validateRequired area ["id", "title", "scoreEntries"])
    (stSeq (areaIdCheck idx area) (areaEntriesCheck idx area))

/-- NaN-propagating addition used for areaScore += entry.scorePercent, with
the raw value coerced through ToNumber.  (A string-valued scorePercent
would concatenate in JS before later numeric coercion; entries of the
documented shape carry numeric or null percents, and all theorems below
restrict to those.) -/
def jnumAdd (a : Option ℚ) (v : Option JValue) : Option ℚ :=
  match a, toNumber v with
  | some x, some y => some (x + y)
  | _, _ => none

/-- NaN-propagating addition of two computed numbers. -/
def jnumAdd2 (a b : Option ℚ) : Option ℚ :=
  match a, b with
  | some x, some y => some (x + y)
  | _, _ => none

/-- NaN-propagating division by a count. -/
def jnumDiv (a : Option ℚ) (n : ℕ) : Option ℚ :=
  a.map (fun x => x / (n : ℚ))

/-- The per-entry accumulation step of ScoreValidator.calculateScores: an
entry counts when scorePercent !== null (an undefined scorePercent passes
this test and poisons the sum to NaN), scoreSuccess !== unknown, and
isOptional is falsy. -/
def calcEntryStep (p : Option ℚ × ℕ) (entry : JValue) : Except String (Option ℚ × ℕ) :=
  (getMember entry "scorePercent").bind (fun sp =>
  (getMember entry "scoreSuccess").bind (fun ss =>
  (getMember entry "isOptional").map (fun io =>
    if !isNullV sp && !isStrV ss "unknown" && !truthy io then
      (jnumAdd p.1 sp, p.2 + 1)
    else p)))

/-- The per-area accumulation step of ScoreValidator.calculateScores: an
area counts when at least one of its entries counted; its mean is added to
the running total. -/
def calcAreaStep (acc : Option ℚ × ℕ) (area : JValue) : Except String (Option ℚ × ℕ) :=
  (getMember area "scoreEntries").bind (fun sev =>
  (jsElems sev).bind (fun entries =>
  (entries.foldlM calcEntryStep ((some 0 : Option ℚ), (0 : ℕ))).map (fun aw =>
    if 0 < aw.2 then (jnumAdd2 acc.1 (jnumDiv aw.1 aw.2), acc.2 + 1) else acc)))

/-- ScoreValidator.calculateScores: the validator's own recomputation of
the overall percent — the mean over counted areas, 0 when none counted. -/
def calculateScores (data : JValue) : Except String (Option ℚ) :=
  (getMember data "areaScores").bind (fun asv =>
  (jsElems asv).bind (fun areas =>
  (areas.foldlM calcAreaStep ((some 0 : Option ℚ), (0 : ℕ))).map (fun tot =>
    if 0 < tot.2 then jnumDiv tot.1 tot.2 else some 0)))

/-- ScoreValidator.validateCalculatedScores: recompute and warn when the
record's own scorePercent is truthy and differs from the recomputed value
by more than 1 (a NaN difference compares false). -/
def validateCalculatedScores (data : JValue) : StM := fun st =>
  (calculateScores data).bind (fun overall =>
  (getMember data "scorePercent").bind (fun sp =>
    if truthy sp then
      (match toNumber sp, overall with
       | some a, some o =>
         if 1 < |a - o| then
           addWarningS ("Overall scorePercent (" ++ displayVal sp ++
             ") differs from calculated value (" ++ toFixed1 overall ++ ")") st
         else Except.ok st
       | _, _ => Except.ok st)
    else Except.ok st))

/-- Step of validateEntityScore: validateEntityRef(data.entityRef). -/
def refStep (data : JValue) : StM := fun st =>
  match getMember data "entityRef" with
  | .error e => Except.error e
  | .ok ref => validateEntityRef ref st

/-- Step of validateEntityScore: validateDateTime on generatedDateTimeUtc. -/
def gdtStep (dOk : Option JValue → Bool) (data : JValue) : StM := fun st =>
  match getMember data "generatedDateTimeUtc" with
  | .error e => Except.error e
  | .ok gdt => validateDateTime dOk gdt "generatedDateTimeUtc" st

/-- Step of validateEntityScore: validateDateTime on scoringReviewDate when
it is truthy. -/
def srdStep (dOk : Option JValue → Bool) (data : JValue) : StM := fun st =>
  match getMember data "scoringReviewDate" with
  | .error e => Except.error e
  | .ok srd =>
    if truthy srd then validateDateTime dOk srd "scoringReviewDate" st else Except.ok st

/-- Step of validateEntityScore: each area validated with its index when
areaScores is an array, a single error otherwise. -/
def areasStep (data : JValue) : StM := fun st =>
  match getMember data "areaScores" with
  | .error e => Except.error e
  | .ok asv =>
    match asv with
    | some (.arr areas) =>
      areas.enum.foldlM (fun s (p : ℕ × JValue) => validateAreaScore p.1 p.2 s) st
    | _ => addErrorS "areaScores must be an array" st

/-- The statement sequence of ScoreValidator.validateEntityScore. -/
def validateEntityScoreBody (dOk : Option JValue → Bool) (data : JValue) : StM :=
  stSeq (validateRequired data ["entityRef", "generatedDateTimeUtc", "areaScores"])
    (stSeq (refStep data)
      (stSeq (gdtStep dOk data)
        (stSeq (srdStep dOk data)
          (stSeq (areasStep data) (validateCalculatedScores data)))))

/-- ScoreValidator.validateEntityScore: the full content validation of one
record; returns this.errors.length === 0 next to the final state. -/
def validateEntityScore (dOk : Option JValue → Bool) (data : JValue) (st : VState) :
    Except String (Bool × VState) :=
  (validateEntityScoreBody dOk data st).map (fun s => (s.errors.isEmpty, s))

/-- Concatenation of two validator states (appending the second state's
accumulated messages after the first's). -/
def VState.app (a b : VState) : VState := ⟨a.errors ++ b.errors, a.warnings ++ b.warnings⟩

/-- A validator step only appends to the accumulated messages: its run from
any starting state is its run from the fresh state with the starting
messages prepended (and the same thrown error, if any). -/
def Frames (f : StM) : Prop :=
  ∀ st, f st = (f vEmpty).map (fun s => VState.app st s)

/-- A date oracle accepting every value (used to instantiate concrete
runs). -/
def dTrue : Option JValue → Bool := fun _ => true

/-! ## Declarative characterizations of the per-entry checks

These pure functions re-state, field by field, which messages the
validator's entry checks append; they are proved equal to runs of the
state-threading code below. -/

/-- The missing-required-field error for one field of an object. -/
def reqFieldErr (fs : List (String × JValue)) (f : String) : Option String :=
  if !(fs.any (fun p => p.1 == f)) || isNullV (lookupF fs f) || isUndefV (lookupF fs f) then
    some ("❌ ERROR: " ++ ("Missing required field: " ++ f))
  else none

/-- All missing-required-field errors of an object, in field order. -/
def reqErrs (fs : List (String × JValue)) (fields : List String) : List String :=
  fields.filterMap (reqFieldErr fs)

/-- The numeric-id error of an entry (or area). -/
def entryIdErrs (fs : List (String × JValue)) (pfx : String) : List String :=
  if isNumV (lookupF fs "id") then [] else ["❌ ERROR: " ++ pfx ++ ".id must be a number"]

/-- The scorePercent range error of an entry. -/
def entryPercentErrs (fs : List (String × JValue)) (pfx : String) : List String :=
  let sp := lookupF fs "scorePercent"
  if !isNullV sp && !isUndefV sp then
    (if (match sp with
         | some (.num q) => decide (q < 0) || decide (100 < q)
         | _ => true) then
      ["❌ ERROR: " ++ pfx ++ ".scorePercent must be a number between 0-100"]
    else [])
  else []

/-- The scoreSuccess category error of an entry. -/
def entrySuccessErrs (fs : List (String × JValue)) (pfx : String) : List String :=
  if !jsIncludesStr ["success", "almost-success", "partial", "almost-failure",
      "failure", "unknown"] (lookupF fs "scoreSuccess") then
    ["❌ ERROR: " ++ pfx ++
      ".scoreSuccess must be one of: success, almost-success, partial, almost-failure, failure, unknown"]
  else []

/-- The text of the score-consistency warning of an entry. -/
def consistencyWarnMsg (fs : List (String × JValue)) (pfx : String) : String :=
  "⚠️  WARNING: " ++ pfx ++ ": scorePercent (" ++ displayVal (lookupF fs "scorePercent") ++
    ") suggests '" ++ getScoreCategory (lookupF fs "scorePercent") ++
    "' but scoreSuccess is '" ++ displayVal (lookupF fs "scoreSuccess") ++ "'"

/-- The score-consistency warning of an entry: emitted when
scorePercent !== null, scoreSuccess !== unknown and the declared category
differs from the derived one. -/
def entryConsistencyWarns (fs : List (String × JValue)) (pfx : String) : List String :=
  let sp := lookupF fs "scorePercent"
  let ss := lookupF fs "scoreSuccess"
  if !isNullV sp && !isStrV ss "unknown" then
    (if !isStrV ss (getScoreCategory sp) then [consistencyWarnMsg fs pfx] else [])
  else []

/-- The TODO-placeholder warning of an entry (for the comment shapes on
which .includes does not throw). -/
def entryTodoWarns (fs : List (String × JValue)) (pfx : String) : List String :=
  match lookupF fs "selfAssessmentComments" with
  | some (.str s) =>
    if strTruthy s && strHasTODO s then
      ["⚠️  WARNING: " ++ pfx ++ ": Self-assessment comments contain TODO placeholder"]
    else []
  | some (.arr l) =>
    if l.any (fun e => isStrV (some e) "TODO:") then
      ["⚠️  WARNING: " ++ pfx ++ ": Self-assessment comments contain TODO placeholder"]
    else []
  | _ => []

/-- selfAssessmentComments has a shape on which the TODO check cannot
throw: anything falsy, a string, or an array. -/
def sacOkB (fs : List (String × JValue)) : Bool :=
  match lookupF fs "selfAssessmentComments" with
  | some (.num q) => decide (q = 0)
  | some (.bool b) => !b
  | some (.obj _) => false
  | _ => true

/-! ## Helper lemmas for the aggregator -/

/-- A left fold adding f of each element equals the initial value plus the
sum of the mapped list (the shape of the reduce calls in the script). -/
theorem foldl_add_map {α : Type} (f : α → ℚ) :
    ∀ (l : List α) (init : ℚ), l.foldl (fun s a => s + f a) init = init + (l.map f).sum := by
  intro l
  induction l with
  | nil => intro init; simp
  | cons a as ih => intro init; simp [ih, add_assoc]

/-- The colour lookup written as nested conditionals in table order: any
percent matching no row (in particular a non-integer percent strictly
between 69 and 70 or between 29 and 30) falls to the default "Red". -/
theorem getScoreLabel_ite (p : ℚ) :
    getScoreLabel p = if 70 ≤ p ∧ p ≤ 100 then "Green" else if 30 ≤ p ∧ p ≤ 69 then "Yellow"
      else if 0 ≤ p ∧ p ≤ 29 then "Red" else "Red" := by
  simp only [getScoreLabel, COLOR_MAPPING, List.find?]
  rcases le_or_lt 70 p with h70 | h70
  · rcases le_or_lt p 100 with h100 | h100
    · simp [h70, h100, show ¬(p ≤ 69) by linarith]
    · simp [h70, show ¬(p ≤ 100) by linarith, show (30:ℚ) ≤ p by linarith,
        show ¬(p ≤ 69) by linarith, show (0:ℚ) ≤ p by linarith, show ¬(p ≤ 29) by linarith]
  · rcases le_or_lt 30 p with h30 | h30
    · rcases le_or_lt p 69 with h69 | h69
      · simp [show ¬(70 ≤ p) by linarith, h30, h69]
      · simp [show ¬(70 ≤ p) by linarith, h30, show ¬(p ≤ 69) by linarith,
          show (0:ℚ) ≤ p by linarith, show ¬(p ≤ 29) by linarith]
    · rcases le_or_lt 0 p with h0 | h0
      · rcases le_or_lt p 29 with h29 | h29
        · simp [show ¬(70 ≤ p) by linarith, show ¬(30 ≤ p) by linarith, h0, h29]
        · simp [show ¬(70 ≤ p) by linarith, show ¬(30 ≤ p) by linarith, h0,
            show ¬(p ≤ 29) by linarith]
      · simp [show ¬(70 ≤ p) by linarith, show ¬(30 ≤ p) by linarith,
          show ¬(0 ≤ p) by linarith]

/-- The success-category lookup written as nested conditionals in table
order: any percent matching no row (a percent strictly inside one of the
gaps (29,30), (49,50), (69,70), (79,80)) falls to the default "failure". -/
theorem getScoreSuccess_ite (p : ℚ) :
    getScoreSuccess p = if 80 ≤ p ∧ p ≤ 100 then "success"
      else if 70 ≤ p ∧ p ≤ 79 then "almost-success"
      else if 50 ≤ p ∧ p ≤ 69 then "partial"
      else if 30 ≤ p ∧ p ≤ 49 then "almost-failure"
      else if 0 ≤ p ∧ p ≤ 29 then "failure" else "failure" := by
  simp only [getScoreSuccess, SCORE_SUCCESS_MAPPING, List.find?]
  rcases le_or_lt 80 p with h80 | h80
  · rcases le_or_lt p 100 with h100 | h100
    · simp [h80, h100, show ¬(p ≤ 79) by linarith, show ¬(p ≤ 69) by linarith,
        show ¬(p ≤ 49) by linarith, show ¬(p ≤ 29) by linarith]
    · simp [h80, show ¬(p ≤ 100) by linarith, show (70:ℚ) ≤ p by linarith,
        show ¬(p ≤ 79) by linarith, show (50:ℚ) ≤ p by linarith, show ¬(p ≤ 69) by linarith,
        show (30:ℚ) ≤ p by linarith, show ¬(p ≤ 49) by linarith,
        show (0:ℚ) ≤ p by linarith, show ¬(p ≤ 29) by linarith]
  · rcases le_or_lt 70 p with h70 | h70
    · rcases le_or_lt p 79 with h79 | h79
      · simp [show ¬(80 ≤ p) by linarith, h70, h79]
      · simp [show ¬(80 ≤ p) by linarith, h70, show ¬(p ≤ 79) by linarith,
          show (50:ℚ) ≤ p by linarith, show ¬(p ≤ 69) by linarith,
          show (30:ℚ) ≤ p by linarith, show ¬(p ≤ 49) by linarith,
          show (0:ℚ) ≤ p by linarith, show ¬(p ≤ 29) by linarith]
    · rcases le_or_lt 50 p with h50 | h50
      · rcases le_or_lt p 69 with h69 | h69
        · simp [show ¬(80 ≤ p) by linarith, show ¬(70 ≤ p) by linarith, h50, h69]
        · simp [show ¬(80 ≤ p) by linarith, show ¬(70 ≤ p) by linarith, h50,
            show ¬(p ≤ 69) by linarith, show (30:ℚ) ≤ p by linarith,
            show ¬(p ≤ 49) by linarith, show (0:ℚ) ≤ p by linarith,
            show ¬(p ≤ 29) by linarith]
      · rcases le_or_lt 30 p with h30 | h30
        · rcases le_or_lt p 49 with h49 | h49
          · simp [show ¬(80 ≤ p) by linarith, show ¬(70 ≤ p) by linarith,
              show ¬(50 ≤ p) by linarith, h30, h49]
          · simp [show ¬(80 ≤ p) by linarith, show ¬(70 ≤ p) by linarith,
              show ¬(50 ≤ p) by linarith, h30, show ¬(p ≤ 49) by linarith,
              show (0:ℚ) ≤ p by linarith, show ¬(p ≤ 29) by linarith]
        · rcases le_or_lt 0 p with h0 | h0
          · rcases le_or_lt p 29 with h29 | h29
            · simp [show ¬(80 ≤ p) by linarith, show ¬(70 ≤ p) by linarith,
                show ¬(50 ≤ p) by linarith, show ¬(30 ≤ p) by linarith, h0, h29]
            · simp [show ¬(80 ≤ p) by linarith, show ¬(70 ≤ p) by linarith,
                show ¬(50 ≤ p) by linarith, show ¬(30 ≤ p) by linarith, h0,
                show ¬(p ≤ 29) by linarith]
          · simp [show ¬(80 ≤ p) by linarith, show ¬(70 ≤ p) by linarith,
              show ¬(50 ≤ p) by linarith, show ¬(30 ≤ p) by linarith,
              show ¬(0 ≤ p) by linarith]

/-! ## Claim theorems about the aggregator's reductions -/

/-- C1: calculateOverallScore is the arithmetic mean of exactly the area
percents strictly greater than zero, 0 when no area qualifies; for area
percents [0, 80, 60] the overall is 70. -/
theorem calculateOverallScore_mean :
    (∀ l : List ProcessedArea,
      calculateOverallScore l =
        if (l.filter (fun a => decide (0 < a.scorePercent))) = [] then 0
        else ((l.filter (fun a => decide (0 < a.scorePercent))).map (fun a => a.scorePercent)).sum /
          (((l.filter (fun a => decide (0 < a.scorePercent))).length : ℚ))) ∧
    calculateOverallScore
      [⟨1, "a", 0, []⟩, ⟨2, "b", 80, []⟩, ⟨3, "c", 60, []⟩] = 70 := by
  constructor
  · intro l
    simp only [calculateOverallScore, List.length_eq_zero,
      foldl_add_map (fun a : ProcessedArea => a.scorePercent), zero_add]
  · norm_num [calculateOverallScore, List.filter, List.foldl]

/-- C2: an area's reduction includes exactly the entries with
scoreSuccess not unknown, a present scorePercent and isOptional false; the
area percent is the arithmetic mean of the included entries' percents
(excluded entries contribute nothing), and 0 with no included entry. -/
theorem processAreaScore_mean :
    ∀ area : AreaScore,
      (∀ e : ScoreEntry, e ∈ scoredEntriesOf area ↔
        (e ∈ area.scoreEntries ∧ e.scoreSuccess ≠ "unknown" ∧
         e.scorePercent ≠ none ∧ e.isOptional = false)) ∧
      (processAreaScore area).scorePercent =
        (if scoredEntriesOf area = [] then 0
         else ((scoredEntriesOf area).map (fun e => e.scorePercent.getD 0)).sum /
           ((scoredEntriesOf area).length : ℚ)) := by
  intro area
  constructor
  · intro e
    simp [scoredEntriesOf, List.mem_filter, Option.isSome_iff_ne_none, and_assoc]
  · simp only [processAreaScore, List.length_pos,
      foldl_add_map (fun e : ScoreEntry => e.scorePercent.getD 0), zero_add]
    rcases eq_or_ne (scoredEntriesOf area) [] with h | h
    · simp [h]
    · simp [h]

/-- C3 counterexample: the colour mapping does not follow the fixed table on
every percent in [0,100]: the non-integer percent 69.5 is mapped to "Red"
although it does not lie in the Red band [0,29] (and not in any band). -/
theorem getScoreLabel_gap_red :
    getScoreLabel (139/2) = "Red" ∧ ¬((139/2 : ℚ) ≤ 29) ∧ (0 ≤ (139/2 : ℚ) ∧ (139/2 : ℚ) ≤ 100) := by
  refine ⟨?_, by norm_num, by norm_num, by norm_num⟩
  rw [getScoreLabel_ite]
  norm_num

/-- C3 amended: both lookups are total on [0,100] and follow the tables on
every percent lying in some band, but a percent in a gap between bands maps
to the defaults "Red" and "failure"; 70 maps to Green and almost-success,
69 to Yellow and partial. -/
theorem score_mappings_total (p : ℚ) (_hlow : 0 ≤ p) (h100 : p ≤ 100) :
    (getScoreLabel p =
      if 70 ≤ p then "Green" else if 30 ≤ p ∧ p ≤ 69 then "Yellow" else "Red") ∧
    (getScoreSuccess p =
      if 80 ≤ p then "success" else if 70 ≤ p ∧ p ≤ 79 then "almost-success"
      else if 50 ≤ p ∧ p ≤ 69 then "partial" else if 30 ≤ p ∧ p ≤ 49 then "almost-failure"
      else "failure") ∧
    getScoreLabel 70 = "Green" ∧ getScoreSuccess 70 = "almost-success" ∧
    getScoreLabel 69 = "Yellow" ∧ getScoreSuccess 69 = "partial" := by
  refine ⟨?_, ?_, ?_, ?_, ?_, ?_⟩
  · rw [getScoreLabel_ite]
    split_ifs <;> first | rfl | (exfalso; simp_all)
  · rw [getScoreSuccess_ite]
    split_ifs <;> first | rfl | (exfalso; simp_all)
  · rw [getScoreLabel_ite]; norm_num
  · rw [getScoreSuccess_ite]; norm_num
  · rw [getScoreLabel_ite]; norm_num
  · rw [getScoreSuccess_ite]; norm_num

/-- Witness for the amended C3 statement at the concrete percent 35. -/
theorem score_mappings_total_at_35 :
    getScoreLabel 35 = "Yellow" ∧ getScoreSuccess 35 = "almost-failure" := by
  have h := score_mappings_total 35 (by norm_num) (by norm_num)
  refine ⟨?_, ?_⟩
  · rw [h.1]; norm_num
  · rw [h.2.1]; norm_num

/-- C9: the aggregator's output is a projection with the documented shape:
namespace copied only when present and different from "default", timestamp
copied through (falling back to the current instant when absent), overall
and per-area percents rounded with Math.round, reviewer fields copied only
when present, and per-area summaries carrying only id, title, rounded
percent, label and success category. -/
theorem processEntityFile_shape (now : String) (data : EntityScoreData) :
    (∀ ns, (processEntityFile now data).entityRef.namespc = some ns →
      data.entityRef.namespc = some ns ∧ ns ≠ "default") ∧
    (processEntityFile now data).entityRef.kind = data.entityRef.kind ∧
    (processEntityFile now data).entityRef.name = data.entityRef.name ∧
    (data.generatedDateTimeUtc = none → (processEntityFile now data).generatedDateTimeUtc = now) ∧
    (∀ s, data.generatedDateTimeUtc = some s → s ≠ "" →
      (processEntityFile now data).generatedDateTimeUtc = s) ∧
    (processEntityFile now data).scorePercent =
      jsRound (calculateOverallScore (data.areaScores.map processAreaScore)) ∧
    (processEntityFile now data).scoreLabel =
      getScoreLabel (calculateOverallScore (data.areaScores.map processAreaScore)) ∧
    (processEntityFile now data).scoreSuccess =
      getScoreSuccess (calculateOverallScore (data.areaScores.map processAreaScore)) ∧
    (∀ r, (processEntityFile now data).scoringReviewer = some r → data.scoringReviewer = some r) ∧
    (∀ d, (processEntityFile now data).scoringReviewDate = some d → data.scoringReviewDate = some d) ∧
    (processEntityFile now data).areaScores = data.areaScores.map (fun a =>
      { id := a.id, title := a.title,
        scorePercent := jsRound (processAreaScore a).scorePercent,
        scoreLabel := getScoreLabel (processAreaScore a).scorePercent,
        scoreSuccess := getScoreSuccess (processAreaScore a).scorePercent }) := by
  refine ⟨?_, rfl, rfl, ?_, ?_, rfl, rfl, rfl, ?_, ?_, ?_⟩
  · intro ns h
    simp only [processEntityFile] at h
    rcases hns : data.entityRef.namespc with _ | ns0
    · simp [hns] at h
    · simp only [hns] at h
      rcases ht : (strTruthy ns0 && decide (ns0 ≠ "default")) with _ | _
      · rw [ht] at h; simp at h
      · rw [ht] at h
        simp only [if_true, Option.some.injEq] at h
        subst h
        simp only [Bool.and_eq_true, decide_eq_true_eq] at ht
        exact ⟨rfl, ht.2⟩
  · intro h
    simp [processEntityFile, h]
  · intro s hs hne
    simp [processEntityFile, hs, strTruthy, hne]
  · intro r h
    simp only [processEntityFile] at h
    rcases hr : data.scoringReviewer with _ | r0
    · simp [hr] at h
    · simp only [hr] at h
      rcases ht : strTruthy r0 with _ | _
      · rw [ht] at h; simp at h
      · rw [ht] at h
        simpa using h
  · intro d h
    simp only [processEntityFile] at h
    rcases hd : data.scoringReviewDate with _ | d0
    · simp [hd] at h
    · simp only [hd] at h
      rcases ht : strTruthy d0 with _ | _
      · rw [ht] at h; simp at h
      · rw [ht] at h
        simpa using h
  · simp [processEntityFile, processAreaScore]

/-- Witness for the shape theorem at a concrete record with namespace
"default", an explicit timestamp, and one scored area. -/
theorem processEntityFile_shape_at_concrete :
    (processEntityFile "2025-01-01T00:00:00Z"
      ⟨⟨"component", "svc", some "default"⟩, some "2024-05-01T00:00:00Z", none, none, none,
        [⟨1, "Ops", [⟨1, "t", "d", "success", some 80, false, none⟩]⟩]⟩).generatedDateTimeUtc =
      "2024-05-01T00:00:00Z" := by
  exact (processEntityFile_shape "2025-01-01T00:00:00Z" _).2.2.2.2.1
    "2024-05-01T00:00:00Z" rfl (by decide)

/-- Any area whose included entries all carry percent 0 (in particular an
area with no included entry at all) reduces to area percent 0. -/
theorem processAreaScore_zero (a : AreaScore)
    (h : ∀ e ∈ scoredEntriesOf a, e.scorePercent = some 0) :
    (processAreaScore a).scorePercent = 0 := by
  simp only [processAreaScore]
  rw [foldl_add_map (fun e : ScoreEntry => e.scorePercent.getD 0), zero_add]
  have hsum : ((scoredEntriesOf a).map (fun e => e.scorePercent.getD 0)).sum = 0 := by
    apply List.sum_eq_zero
    intro x hx
    rcases List.mem_map.mp hx with ⟨e, he, rfl⟩
    rw [h e he]
    rfl
  rw [hsum]
  simp

/-- C10: a record in which no area has any included entry (every entry
unknown, optional, or percent-less) — and more generally any record whose
included entries all score 0 — produces overall percent 0, label "Red",
success "failure", and every per-area summary likewise 0 / "Red" /
"failure"; so a fully unscored record is indistinguishable in these output
fields from a record that genuinely scored 0 everywhere. -/
theorem processEntityFile_unscored (now : String) (data : EntityScoreData)
    (h : ∀ a ∈ data.areaScores, ∀ e ∈ scoredEntriesOf a, e.scorePercent = some 0) :
    (processEntityFile now data).scorePercent = 0 ∧
    (processEntityFile now data).scoreLabel = "Red" ∧
    (processEntityFile now data).scoreSuccess = "failure" ∧
    ∀ s ∈ (processEntityFile now data).areaScores,
      s.scorePercent = 0 ∧ s.scoreLabel = "Red" ∧ s.scoreSuccess = "failure" := by
  have hzero : ∀ a ∈ data.areaScores, (processAreaScore a).scorePercent = 0 := by
    intro a ha
    exact processAreaScore_zero a (h a ha)
  have hoverall : calculateOverallScore (data.areaScores.map processAreaScore) = 0 := by
    unfold calculateOverallScore
    have hfil : (data.areaScores.map processAreaScore).filter
        (fun a => decide (0 < a.scorePercent)) = [] := by
      rw [List.filter_eq_nil_iff]
      intro p hp
      rcases List.mem_map.mp hp with ⟨a, ha, rfl⟩
      simp [hzero a ha]
    simp [hfil]
  have hround : jsRound 0 = 0 := by norm_num [jsRound]
  have hred : getScoreLabel 0 = "Red" := by rw [getScoreLabel_ite]; norm_num
  have hfail : getScoreSuccess 0 = "failure" := by rw [getScoreSuccess_ite]; norm_num
  refine ⟨?_, ?_, ?_, ?_⟩
  · show jsRound (calculateOverallScore (data.areaScores.map processAreaScore)) = 0
    rw [hoverall, hround]
  · show getScoreLabel (calculateOverallScore (data.areaScores.map processAreaScore)) = "Red"
    rw [hoverall, hred]
  · show getScoreSuccess (calculateOverallScore (data.areaScores.map processAreaScore)) = "failure"
    rw [hoverall, hfail]
  · intro s hs
    simp only [processEntityFile, List.map_map, List.mem_map] at hs
    rcases hs with ⟨a, ha, rfl⟩
    simp only [Function.comp]
    exact ⟨by rw [hzero a ha, hround], by rw [hzero a ha, hred], by rw [hzero a ha, hfail]⟩

/-- Witness for the unscored-record theorem: a record with one area whose
single entry is unknown (so no entry is included). -/
theorem processEntityFile_unscored_at_concrete :
    (processEntityFile "2025-01-01T00:00:00Z"
      ⟨⟨"component", "svc", none⟩, some "2024-05-01T00:00:00Z", none, none, none,
        [⟨1, "Ops", [⟨1, "t", "d", "unknown", none, false, none⟩]⟩]⟩).scorePercent = 0 ∧
    (processEntityFile "2025-01-01T00:00:00Z"
      ⟨⟨"component", "svc", none⟩, some "2024-05-01T00:00:00Z", none, none, none,
        [⟨1, "Ops", [⟨1, "t", "d", "unknown", none, false, none⟩]⟩]⟩).scoreLabel = "Red" := by
  have h := processEntityFile_unscored "2025-01-01T00:00:00Z"
    ⟨⟨"component", "svc", none⟩, some "2024-05-01T00:00:00Z", none, none, none,
      [⟨1, "Ops", [⟨1, "t", "d", "unknown", none, false, none⟩]⟩]⟩ (by decide)
  exact ⟨h.1, h.2.1⟩

/-! ## Frame lemmas: every validator step only appends messages -/

theorem vapp_vEmpty_left (s : VState) : VState.app vEmpty s = s := by
  simp [VState.app, vEmpty]

theorem vapp_vEmpty_right (s : VState) : VState.app s vEmpty = s := by
  simp [VState.app, vEmpty]

theorem vapp_assoc (a b c : VState) :
    VState.app (VState.app a b) c = VState.app a (VState.app b c) := by
  simp [VState.app, List.append_assoc]

theorem frames_ok : Frames (fun st => Except.ok st) := by
  intro st
  simp [Except.map, vapp_vEmpty_right]

theorem frames_error (msg : String) : Frames (fun _ => Except.error msg) := by
  intro st
  simp [Except.map]

theorem frames_addErrorS (m : String) : Frames (addErrorS m) := by
  intro st
  simp [addErrorS, Except.map, VState.app, vEmpty]

theorem frames_addWarningS (m : String) : Frames (addWarningS m) := by
  intro st
  simp [addWarningS, Except.map, VState.app, vEmpty]

theorem frames_bind {f : StM} {g : StM} (hf : Frames f) (hg : Frames g) :
    Frames (fun st => (f st).bind g) := by
  intro st
  show (f st).bind g = Except.map (fun s => VState.app st s) ((f vEmpty).bind g)
  rw [hf st]
  cases hfe : f vEmpty with
  | error e => simp [Except.map, Except.bind]
  | ok s =>
    simp only [Except.map, Except.bind]
    rw [hg (VState.app st s), hg s]
    cases hge : g vEmpty with
    | error e => simp [Except.map]
    | ok s2 => simp [Except.map, vapp_assoc]

theorem frames_stSeq {f g : StM} (hf : Frames f) (hg : Frames g) : Frames (stSeq f g) := by
  have h := frames_bind hf hg
  intro st
  exact h st

theorem frames_ite {c : Prop} [Decidable c] {f g : StM} (hf : Frames f) (hg : Frames g) :
    Frames (fun st => if c then f st else g st) := by
  intro st
  by_cases h : c <;> simp [h, hf st, hg st]

theorem frames_matchE {α : Type} (e : Except String α) (k : α → StM)
    (h : ∀ a, Frames (k a)) :
    Frames (fun st => match e with | .error m => Except.error m | .ok a => k a st) := by
  cases e with
  | error m => exact frames_error m
  | ok a => exact h a

theorem frames_foldlM {α : Type} (step : VState → α → Except String VState)
    (h : ∀ a, Frames (fun st => step st a)) :
    ∀ l : List α, Frames (fun st => l.foldlM step st) := by
  intro l
  induction l with
  | nil =>
    intro st
    simp [List.foldlM, Except.map, vapp_vEmpty_right, pure, Except.pure]
  | cons a as ih =>
    have hbind := frames_bind (h a) (fun st => ih st)
    intro st
    simp only [List.foldlM_cons]
    exact hbind st

theorem isEmpty_append_eq (a b : List String) :
    (a ++ b).isEmpty = (a.isEmpty && b.isEmpty) := by
  cases a <;> simp [List.isEmpty]

theorem frames_validateRequired (v : JValue) (fields : List String) :
    Frames (validateRequired v fields) := by
  unfold validateRequired
  apply frames_foldlM
  intro f
  cases jsIn f v with
  | error e => exact frames_error e
  | ok has =>
    cases getMember v f with
    | error e => exact frames_error e
    | ok mv => exact frames_ite (frames_addErrorS _) frames_ok

theorem frames_validateEntityRefBody (r : JValue) : Frames (validateEntityRefBody r) := by
  unfold validateEntityRefBody
  apply frames_stSeq (frames_validateRequired r _)
  cases getMember r "kind" with
  | error e => exact frames_error e
  | ok kv => exact frames_ite (frames_addWarningS _) frames_ok

theorem frames_validateEntityRef (ref : Option JValue) : Frames (validateEntityRef ref) := by
  unfold validateEntityRef
  cases ref with
  | none => exact frames_addErrorS _
  | some v =>
    cases v with
    | null => exact frames_addErrorS _
    | bool b => exact frames_addErrorS _
    | num q => exact frames_addErrorS _
    | str s => exact frames_addErrorS _
    | arr l => exact frames_validateEntityRefBody _
    | obj fs => exact frames_validateEntityRefBody _

theorem frames_validateDateTime (dOk : Option JValue → Bool) (v : Option JValue)
    (fieldName : String) : Frames (validateDateTime dOk v fieldName) := by
  unfold validateDateTime
  exact frames_ite frames_ok (frames_addErrorS _)

theorem frames_entryIdCheck (pfx : String) (entry : JValue) :
    Frames (entryIdCheck pfx entry) := by
  unfold entryIdCheck
  cases getMember entry "id" with
  | error e => exact frames_error e
  | ok idv => exact frames_ite (frames_addErrorS _) frames_ok

theorem frames_entryPercentCheck (pfx : String) (entry : JValue) :
    Frames (entryPercentCheck pfx entry) := by
  unfold entryPercentCheck
  cases getMember entry "scorePercent" with
  | error e => exact frames_error e
  | ok sp => exact frames_ite (frames_ite (frames_addErrorS _) frames_ok) frames_ok

theorem frames_entrySuccessCheck (pfx : String) (entry : JValue) :
    Frames (entrySuccessCheck pfx entry) := by
  unfold entrySuccessCheck
  cases getMember entry "scoreSuccess" with
  | error e => exact frames_error e
  | ok ss => exact frames_ite (frames_addErrorS _) frames_ok

theorem frames_entryConsistencyCheck (pfx : String) (entry : JValue) :
    Frames (entryConsistencyCheck pfx entry) := by
  unfold entryConsistencyCheck
  cases getMember entry "scorePercent" with
  | error e => exact frames_error e
  | ok sp =>
    cases getMember entry "scoreSuccess" with
    | error e => exact frames_error e
    | ok ss => exact frames_ite (frames_ite (frames_addWarningS _) frames_ok) frames_ok

theorem frames_entryTodoCheck (pfx : String) (entry : JValue) :
    Frames (entryTodoCheck pfx entry) := by
  unfold entryTodoCheck
  cases getMember entry "selfAssessmentComments" with
  | error e => exact frames_error e
  | ok sac =>
    apply frames_ite ?_ frames_ok
    cases sac with
    | none => exact frames_error _
    | some v =>
      cases v with
      | null => exact frames_error _
      | bool b => exact frames_error _
      | num q => exact frames_error _
      | str s => exact frames_ite (frames_addWarningS _) frames_ok
      | arr l => exact frames_ite (frames_addWarningS _) frames_ok
      | obj fs => exact frames_error _

theorem frames_validateScoreEntry (pfx : String) (entry : JValue) :
    Frames (validateScoreEntry pfx entry) := by
  unfold validateScoreEntry
  exact frames_stSeq (frames_validateRequired _ _)
    (frames_stSeq (frames_entryIdCheck _ _)
      (frames_stSeq (frames_entryPercentCheck _ _)
        (frames_stSeq (frames_entrySuccessCheck _ _)
          (frames_stSeq (frames_entryConsistencyCheck _ _) (frames_entryTodoCheck _ _)))))

theorem frames_areaIdCheck (idx : ℕ) (area : JValue) : Frames (areaIdCheck idx area) := by
  unfold areaIdCheck
  cases getMember area "id" with
  | error e => exact frames_error e
  | ok idv => exact frames_ite (frames_addErrorS _) frames_ok

theorem frames_areaEntriesCheck (idx : ℕ) (area : JValue) :
    Frames (areaEntriesCheck idx area) := by
  unfold areaEntriesCheck
  cases getMember area "scoreEntries" with
  | error e => exact frames_error e
  | ok sev =>
    cases sev with
    | none => exact frames_addErrorS _
    | some v =>
      cases v with
      | null => exact frames_addErrorS _
      | bool b => exact frames_addErrorS _
      | num q => exact frames_addErrorS _
      | str s => exact frames_addErrorS _
      | obj fs => exact frames_addErrorS _
      | arr entries =>
        apply frames_bind (frames_ite (frames_addErrorS _) frames_ok)
        apply frames_foldlM
        intro p
        exact frames_validateScoreEntry _ _

theorem frames_validateAreaScore (idx : ℕ) (area : JValue) :
    Frames (validateAreaScore idx area) := by
  unfold validateAreaScore
  exact frames_stSeq (frames_validateRequired _ _)
    (frames_stSeq (frames_areaIdCheck _ _) (frames_areaEntriesCheck _ _))

theorem frames_validateCalculatedScores (data : JValue) :
    Frames (validateCalculatedScores data) := by
  unfold validateCalculatedScores
  cases calculateScores data with
  | error e => exact frames_error e
  | ok overall =>
    cases getMember data "scorePercent" with
    | error e => exact frames_error e
    | ok sp =>
      apply frames_ite ?_ frames_ok
      cases toNumber sp with
      | none => exact frames_ok
      | some a =>
        cases overall with
        | none => exact frames_ok
        | some o => exact frames_ite (frames_addWarningS _) frames_ok

theorem frames_refStep (data : JValue) : Frames (refStep data) := by
  unfold refStep
  cases getMember data "entityRef" with
  | error e => exact frames_error e
  | ok ref => exact frames_validateEntityRef ref

theorem frames_gdtStep (dOk : Option JValue → Bool) (data : JValue) :
    Frames (gdtStep dOk data) := by
  unfold gdtStep
  cases getMember data "generatedDateTimeUtc" with
  | error e => exact frames_error e
  | ok gdt => exact frames_validateDateTime dOk gdt _

theorem frames_srdStep (dOk : Option JValue → Bool) (data : JValue) :
    Frames (srdStep dOk data) := by
  unfold srdStep
  cases getMember data "scoringReviewDate" with
  | error e => exact frames_error e
  | ok srd => exact frames_ite (frames_validateDateTime dOk srd _) frames_ok

theorem frames_areasStep (data : JValue) : Frames (areasStep data) := by
  unfold areasStep
  cases getMember data "areaScores" with
  | error e => exact frames_error e
  | ok asv =>
    cases asv with
    | none => exact frames_addErrorS _
    | some v =>
      cases v with
      | null => exact frames_addErrorS _
      | bool b => exact frames_addErrorS _
      | num q => exact frames_addErrorS _
      | str s => exact frames_addErrorS _
      | obj fs => exact frames_addErrorS _
      | arr areas =>
        apply frames_foldlM
        intro p
        exact frames_validateAreaScore _ _

theorem frames_validateEntityScoreBody (dOk : Option JValue → Bool) (data : JValue) :
    Frames (validateEntityScoreBody dOk data) := by
  unfold validateEntityScoreBody
  exact frames_stSeq (frames_validateRequired _ _)
    (frames_stSeq (frames_refStep _)
      (frames_stSeq (frames_gdtStep _ _)
        (frames_stSeq (frames_srdStep _ _)
          (frames_stSeq (frames_areasStep _) (frames_validateCalculatedScores _)))))

/-! ## Claim theorems about the validator -/

/-- C5 amended: validating a record appends to the validator instance
exactly the errors and warnings a fresh validator would produce for that
record (so the messages attributable to the record depend only on its own
content), but the returned verdict is the conjunction of "no previously
accumulated error" with the fresh verdict: on a shared validator instance,
a record validated after an invalid one is reported invalid even when it is
valid on a fresh validator. -/
theorem validateEntityScore_frame (dOk : Option JValue → Bool) (data : JValue) (st : VState) :
    validateEntityScore dOk data st =
      (validateEntityScore dOk data vEmpty).map
        (fun p => (st.errors.isEmpty && p.1, VState.app st p.2)) := by
  unfold validateEntityScore
  rw [frames_validateEntityScoreBody dOk data st]
  cases validateEntityScoreBody dOk data vEmpty with
  | error e => simp [Except.map]
  | ok s =>
    simp [Except.map, VState.app, isEmpty_append_eq]

/-- Witness: the frame equation evaluated on a concrete record and a
concrete dirty starting state. -/
theorem validateEntityScore_frame_at_concrete :
    validateEntityScore dTrue (.obj []) ⟨["❌ ERROR: x"], []⟩ =
      (validateEntityScore dTrue (.obj []) vEmpty).map
        (fun p => ((⟨["❌ ERROR: x"], []⟩ : VState).errors.isEmpty && p.1,
          VState.app ⟨["❌ ERROR: x"], []⟩ p.2)) :=
  validateEntityScore_frame dTrue (.obj []) ⟨["❌ ERROR: x"], []⟩

/-- C5 counterexample: validating a record that is valid on a fresh
validator (verdict true) yields verdict false when run on the same
validator instance right after a record with a missing entityRef.kind —
the verdict does not depend only on the record's own content. -/
theorem validateEntityScore_not_independent :
    (validateEntityScore dTrue
      (.obj [("entityRef", .obj [("kind", .str "component"), ("name", .str "b")]),
        ("generatedDateTimeUtc", .str "2024-01-01"), ("areaScores", .arr [])])
      vEmpty).map Prod.fst = .ok true ∧
    (match validateEntityScore dTrue
        (.obj [("entityRef", .obj [("name", .str "a")]),
          ("generatedDateTimeUtc", .str "2024-01-01"), ("areaScores", .arr [])]) vEmpty with
     | .ok p => (validateEntityScore dTrue
        (.obj [("entityRef", .obj [("kind", .str "component"), ("name", .str "b")]),
          ("generatedDateTimeUtc", .str "2024-01-01"), ("areaScores", .arr [])]) p.2).map Prod.fst
     | .error e => .error e) = .ok false := by
  exact ⟨rfl, rfl⟩

/-- C4: the content validation is not total on malformed content — on the
record {} (and on any record whose areaScores is absent or not an array)
the final consistency check dereferences data.areaScores.forEach and throws
a TypeError, for every date oracle and from every starting state. -/
theorem validateEntityScore_throws_on_empty_record (dOk : Option JValue → Bool) (st : VState) :
    validateEntityScore dOk (.obj []) st =
      .error "TypeError: Cannot read properties of undefined" := by
  have hbody : ∀ s3 : VState, validateCalculatedScores (.obj []) s3 =
      .error "TypeError: Cannot read properties of undefined" := fun s3 => rfl
  unfold validateEntityScore validateEntityScoreBody stSeq
  cases hd : dOk none <;>
    simp [validateRequired, jsIn, getMember, lookupF, refStep, validateEntityRef,
      gdtStep, validateDateTime, hd, srdStep, truthy, areasStep, addErrorS,
      List.foldlM, Except.bind, Except.map, hbody] <;> rfl

/-! ## Characterization of the entry checks as message-append runs -/

theorem validateRequired_obj (fs : List (String × JValue)) (fields : List String)
    (st : VState) :
    validateRequired (.obj fs) fields st = .ok ⟨st.errors ++ reqErrs fs fields, st.warnings⟩ := by
  induction fields generalizing st with
  | nil => simp [validateRequired, reqErrs, List.foldlM, pure, Except.pure]
  | cons f rest ih =>
    have hstep : validateRequired (.obj fs) (f :: rest) st =
        (if !(fs.any (fun p => p.1 == f)) || isNullV (lookupF fs f) || isUndefV (lookupF fs f)
         then addErrorS ("Missing required field: " ++ f) st
         else Except.ok st).bind (fun s => validateRequired (.obj fs) rest s) := by
      simp only [validateRequired, List.foldlM_cons, jsIn, getMember]
      rfl
    rw [hstep]
    cases hc : (!(fs.any (fun p => p.1 == f)) || isNullV (lookupF fs f) || isUndefV (lookupF fs f)) with
    | false =>
      simp only [hc, if_false, Bool.false_eq_true, Except.bind]
      rw [ih st]
      simp [reqErrs, List.filterMap_cons, reqFieldErr, hc]
    | true =>
      simp only [hc, if_true, addErrorS, Except.bind]
      rw [ih]
      simp [reqErrs, List.filterMap_cons, reqFieldErr, hc, String.append_assoc]

theorem entryIdCheck_obj (pfx : String) (fs : List (String × JValue)) (st : VState) :
    entryIdCheck pfx (.obj fs) st = .ok ⟨st.errors ++ entryIdErrs fs pfx, st.warnings⟩ := by
  unfold entryIdCheck entryIdErrs
  cases hn : isNumV (lookupF fs "id") <;> simp [getMember, hn, addErrorS, String.append_assoc]

theorem entryPercentCheck_obj (pfx : String) (fs : List (String × JValue)) (st : VState) :
    entryPercentCheck pfx (.obj fs) st =
      .ok ⟨st.errors ++ entryPercentErrs fs pfx, st.warnings⟩ := by
  unfold entryPercentCheck entryPercentErrs
  cases h1 : (!isNullV (lookupF fs "scorePercent") && !isUndefV (lookupF fs "scorePercent")) with
  | false => simp [getMember, h1]
  | true =>
    cases h2 : (match lookupF fs "scorePercent" with
                | some (.num q) => decide (q < 0) || decide (100 < q)
                | _ => true) with
    | false => simp [getMember, h1, h2]
    | true => simp [getMember, h1, h2, addErrorS, String.append_assoc]

theorem entrySuccessCheck_obj (pfx : String) (fs : List (String × JValue)) (st : VState) :
    entrySuccessCheck pfx (.obj fs) st =
      .ok ⟨st.errors ++ entrySuccessErrs fs pfx, st.warnings⟩ := by
  unfold entrySuccessCheck entrySuccessErrs
  cases hs : jsIncludesStr ["success", "almost-success", "partial", "almost-failure",
      "failure", "unknown"] (lookupF fs "scoreSuccess") <;>
    simp [getMember, hs, addErrorS, String.append_assoc]

theorem entryConsistencyCheck_obj (pfx : String) (fs : List (String × JValue)) (st : VState) :
    entryConsistencyCheck pfx (.obj fs) st =
      .ok ⟨st.errors, st.warnings ++ entryConsistencyWarns fs pfx⟩ := by
  unfold entryConsistencyCheck entryConsistencyWarns consistencyWarnMsg
  cases h1 : (!isNullV (lookupF fs "scorePercent") &&
      !isStrV (lookupF fs "scoreSuccess") "unknown") with
  | false => simp [getMember, h1]
  | true =>
    cases h2 : isStrV (lookupF fs "scoreSuccess")
        (getScoreCategory (lookupF fs "scorePercent")) with
    | false => simp [getMember, h1, h2, addWarningS, String.append_assoc]
    | true => simp [getMember, h1, h2]

theorem entryTodoCheck_obj (pfx : String) (fs : List (String × JValue)) (st : VState)
    (h : sacOkB fs = true) :
    entryTodoCheck pfx (.obj fs) st = .ok ⟨st.errors, st.warnings ++ entryTodoWarns fs pfx⟩ := by
  unfold entryTodoCheck entryTodoWarns
  unfold sacOkB at h
  cases hv : lookupF fs "selfAssessmentComments" with
  | none => simp [getMember, hv, truthy]
  | some v =>
    cases v with
    | null => simp [getMember, hv, truthy]
    | bool b =>
      rw [hv] at h
      cases b with
      | false => simp [getMember, hv, truthy]
      | true => simp at h
    | num q =>
      rw [hv] at h
      simp only [decide_eq_true_eq] at h
      simp [getMember, hv, truthy, h]
    | str s =>
      cases ht : strTruthy s with
      | false =>
        have : truthy (some (.str s)) = false := by
          simpa [truthy, strTruthy] using ht
        simp [getMember, hv, this, ht]
      | true =>
        have htr : truthy (some (.str s)) = true := by
          simpa [truthy, strTruthy] using ht
        cases htodo : strHasTODO s <;>
          simp [getMember, hv, htr, ht, htodo, addWarningS, String.append_assoc]
    | arr l =>
      cases hincl : l.any (fun e => isStrV (some e) "TODO:") <;>
        simp [getMember, hv, truthy, hincl, addWarningS, String.append_assoc]
    | obj ofs =>
      rw [hv] at h
      simp at h

/-- Running validateScoreEntry on an object entry (whose comment field the
TODO check cannot throw on) appends exactly the declarative error and
warning lists. -/
theorem validateScoreEntry_obj (pfx : String) (fs : List (String × JValue)) (st : VState)
    (h : sacOkB fs = true) :
    validateScoreEntry pfx (.obj fs) st = .ok
      ⟨st.errors ++ (reqErrs fs ["id", "title", "scoreSuccess", "details"] ++
          entryIdErrs fs pfx ++ entryPercentErrs fs pfx ++ entrySuccessErrs fs pfx),
       st.warnings ++ (entryConsistencyWarns fs pfx ++ entryTodoWarns fs pfx)⟩ := by
  unfold validateScoreEntry stSeq
  rw [validateRequired_obj]
  simp only [Except.bind]
  rw [entryIdCheck_obj]
  simp only [Except.bind]
  rw [entryPercentCheck_obj]
  simp only [Except.bind]
  rw [entrySuccessCheck_obj]
  simp only [Except.bind]
  rw [entryConsistencyCheck_obj]
  simp only [Except.bind]
  rw [entryTodoCheck_obj _ _ _ h]
  simp [List.append_assoc]

/-- C6 counterexample: an entry with an absent scorePercent (and a concrete
scoreSuccess) does draw a consistency warning — the check only tests
!== null, undefined passes it, and the derived category of an undefined
percent is "unknown". -/
theorem entryConsistency_absent_percent_warns :
    validateScoreEntry "p"
      (.obj [("id", .num 1), ("title", .str "t"), ("scoreSuccess", .str "success"),
        ("details", .str "d")]) vEmpty =
      .ok ⟨[], ["⚠️  WARNING: p: scorePercent (undefined) suggests 'unknown' but scoreSuccess is 'success'"]⟩ :=
  rfl

/-- C6 amended: on any object entry (whose comment field cannot make the
TODO check throw), validateScoreEntry appends its errors independently of
the consistency check, appends the consistency warning exactly when
scorePercent !== null (absent counts as present here), scoreSuccess !==
unknown, and the declared category differs from the derived one; and for a
record whose entry has scorePercent 85 with scoreSuccess "partial" the
warning is emitted while the record validates as valid. -/
theorem entryConsistency_amended :
    (∀ (pfx : String) (fs : List (String × JValue)) (st : VState), sacOkB fs = true →
      validateScoreEntry pfx (.obj fs) st = .ok
        ⟨st.errors ++ (reqErrs fs ["id", "title", "scoreSuccess", "details"] ++
            entryIdErrs fs pfx ++ entryPercentErrs fs pfx ++ entrySuccessErrs fs pfx),
         st.warnings ++ (entryConsistencyWarns fs pfx ++ entryTodoWarns fs pfx)⟩ ∧
      (entryConsistencyWarns fs pfx ≠ [] ↔
        (isNullV (lookupF fs "scorePercent") = false ∧
         isStrV (lookupF fs "scoreSuccess") "unknown" = false ∧
         isStrV (lookupF fs "scoreSuccess")
           (getScoreCategory (lookupF fs "scorePercent")) = false))) ∧
    (validateEntityScore dTrue
      (.obj [("entityRef", .obj [("kind", .str "component"), ("name", .str "svc")]),
        ("generatedDateTimeUtc", .str "2024-01-01"),
        ("areaScores", .arr [.obj [("id", .num 1), ("title", .str "Ops"),
          ("scoreEntries", .arr [.obj [("id", .num 1), ("title", .str "t"),
            ("details", .str "d"), ("scoreSuccess", .str "partial"),
            ("scorePercent", .num 85)]])]])]) vEmpty).map
      (fun p => (p.1, decide
        ("⚠️  WARNING: areaScores[0].scoreEntries[0]: scorePercent (85) suggests 'success' but scoreSuccess is 'partial'"
          ∈ p.2.warnings))) = .ok (true, true) := by
  constructor
  · intro pfx fs st h
    refine ⟨validateScoreEntry_obj pfx fs st h, ?_⟩
    unfold entryConsistencyWarns
    cases h1 : isNullV (lookupF fs "scorePercent") with
    | true => simp [h1]
    | false =>
      cases h2 : isStrV (lookupF fs "scoreSuccess") "unknown" with
      | true => simp [h1, h2]
      | false =>
        cases h3 : isStrV (lookupF fs "scoreSuccess")
            (getScoreCategory (lookupF fs "scorePercent")) with
        | true => simp [h1, h2, h3]
        | false => simp [h1, h2, h3]
  · rfl

/-- Witness for the amended C6 statement at the concrete 85 / partial
entry. -/
theorem entryConsistency_amended_at_concrete :
    validateScoreEntry "p"
      (.obj [("id", .num 1), ("title", .str "t"), ("details", .str "d"),
        ("scoreSuccess", .str "partial"), ("scorePercent", .num 85)]) vEmpty =
      .ok ⟨[], ["⚠️  WARNING: p: scorePercent (85) suggests 'success' but scoreSuccess is 'partial'"]⟩ := by
  have h := (entryConsistency_amended.1 "p"
    [("id", .num 1), ("title", .str "t"), ("details", .str "d"),
      ("scoreSuccess", .str "partial"), ("scorePercent", .num 85)] vEmpty (by decide)).1
  rw [h]
  rfl

/-- C8: the validation verdict is true exactly when the accumulated errors
list is empty; and an entry records an error (in the errors list) both when
its scorePercent is present (neither null nor undefined) but not a number
within [0,100], and when its scoreSuccess is not one of the six fixed
categories. -/
theorem validator_verdict_and_entry_errors :
    (∀ (dOk : Option JValue → Bool) (data : JValue) (st : VState) (b : Bool) (st' : VState),
      validateEntityScore dOk data st = .ok (b, st') → (b = true ↔ st'.errors = [])) ∧
    (∀ (pfx : String) (fs : List (String × JValue)) (st : VState), sacOkB fs = true →
      isNullV (lookupF fs "scorePercent") = false →
      isUndefV (lookupF fs "scorePercent") = false →
      (match lookupF fs "scorePercent" with
       | some (.num q) => decide (q < 0) || decide (100 < q)
       | _ => true) = true →
      ∃ st', validateScoreEntry pfx (.obj fs) st = .ok st' ∧
        ("❌ ERROR: " ++ pfx ++ ".scorePercent must be a number between 0-100") ∈ st'.errors) ∧
    (∀ (pfx : String) (fs : List (String × JValue)) (st : VState), sacOkB fs = true →
      jsIncludesStr ["success", "almost-success", "partial", "almost-failure",
        "failure", "unknown"] (lookupF fs "scoreSuccess") = false →
      ∃ st', validateScoreEntry pfx (.obj fs) st = .ok st' ∧
        ("❌ ERROR: " ++ pfx ++
          ".scoreSuccess must be one of: success, almost-success, partial, almost-failure, failure, unknown")
          ∈ st'.errors) := by
  refine ⟨?_, ?_, ?_⟩
  · intro dOk data st b st' h
    unfold validateEntityScore at h
    cases hb : validateEntityScoreBody dOk data st with
    | error e => rw [hb] at h; simp [Except.map] at h
    | ok s =>
      rw [hb] at h
      simp only [Except.map, Except.ok.injEq, Prod.mk.injEq] at h
      rcases h with ⟨h1, h2⟩
      subst h1
      subst h2
      cases s.errors <;> simp [List.isEmpty]
  · intro pfx fs st h hnull hundef hrange
    refine ⟨_, validateScoreEntry_obj pfx fs st h, ?_⟩
    have hpe : entryPercentErrs fs pfx =
        ["❌ ERROR: " ++ pfx ++ ".scorePercent must be a number between 0-100"] := by
      unfold entryPercentErrs
      simp [hnull, hundef, hrange, String.append_assoc]
    simp [hpe]
  · intro pfx fs st h hsucc
    refine ⟨_, validateScoreEntry_obj pfx fs st h, ?_⟩
    have hse : entrySuccessErrs fs pfx =
        ["❌ ERROR: " ++ pfx ++
          ".scoreSuccess must be one of: success, almost-success, partial, almost-failure, failure, unknown"] := by
      unfold entrySuccessErrs
      simp [hsucc, String.append_assoc]
    simp [hse]

/-- Witness: a concrete entry with scorePercent 105 and scoreSuccess
"great" draws both errors, and a concrete clean record shows the
verdict-iff-no-errors equivalence. -/
theorem validator_verdict_and_entry_errors_at_concrete :
    (∃ st', validateScoreEntry "p"
        (.obj [("id", .num 1), ("title", .str "t"), ("scoreSuccess", .str "great"),
          ("details", .str "d"), ("scorePercent", .num 105)]) vEmpty = .ok st' ∧
      ("❌ ERROR: " ++ "p" ++ ".scorePercent must be a number between 0-100") ∈ st'.errors) ∧
    (∃ st', validateScoreEntry "p"
        (.obj [("id", .num 1), ("title", .str "t"), ("scoreSuccess", .str "great"),
          ("details", .str "d"), ("scorePercent", .num 105)]) vEmpty = .ok st' ∧
      ("❌ ERROR: " ++ "p" ++
        ".scoreSuccess must be one of: success, almost-success, partial, almost-failure, failure, unknown")
        ∈ st'.errors) ∧
    (true = true ↔ ([] : List String) = []) := by
  refine ⟨?_, ?_, ?_⟩
  · exact validator_verdict_and_entry_errors.2.1 "p" _ vEmpty (by decide) (by decide) (by decide)
      (by decide)
  · exact validator_verdict_and_entry_errors.2.2 "p" _ vEmpty (by decide) (by decide)
  · exact validator_verdict_and_entry_errors.1 dTrue
      (.obj [("entityRef", .obj [("kind", .str "component"), ("name", .str "b")]),
        ("generatedDateTimeUtc", .str "2024-01-01"), ("areaScores", .arr [])]) vEmpty true
      ⟨[], []⟩ rfl

theorem except_bind_ok {α β : Type} (a : α) (f : α → Except String β) :
    (Except.ok a >>= f) = f a := rfl

/-- C7 counterexample: a record whose stored scorePercent is 0 draws no
drift warning although the recomputed overall is 50 (a difference far above
1 percentage point) — data.scorePercent && ... is falsy at 0, so the check
is skipped. -/
theorem calculatedScores_zero_skipped :
    validateCalculatedScores
      (.obj [("scorePercent", .num 0), ("areaScores", .arr [.obj [("scoreEntries",
        .arr [.obj [("scorePercent", .num 50), ("scoreSuccess", .str "partial")]])]])])
      vEmpty = .ok vEmpty ∧
    calculateScores
      (.obj [("scorePercent", .num 0), ("areaScores", .arr [.obj [("scoreEntries",
        .arr [.obj [("scorePercent", .num 50), ("scoreSuccess", .str "partial")]])]])]) =
      .ok (some 50) ∧
    (1 : ℚ) < |(0 : ℚ) - 50| := by
  refine ⟨rfl, ?_, by norm_num⟩
  simp [calculateScores, calcAreaStep, calcEntryStep, List.foldlM, getMember, lookupF,
    jsElems, isNullV, isStrV, truthy, jnumAdd, jnumAdd2, jnumDiv, toNumber, toNumberJ,
    Except.bind, Except.map, except_bind_ok]

/-- C7 amended: the drift warning is emitted exactly when the record's own
scorePercent is truthy — a nonzero number; not when it is 0, null or absent
— and the value recomputed by the validator's own calculateScores algorithm
differs from it by more than 1; and that recomputation is not the
Aggregator's algorithm: on area percents [0, 80, 60] the validator
recomputes 140/3 (every area with a counted entry participates) while the
Aggregator's overall reduction gives 70 (zero-percent areas excluded). -/
theorem validateCalculatedScores_amended :
    (∀ (fs : List (String × JValue)) (st : VState) (r : Option ℚ),
      truthy (lookupF fs "scorePercent") = false →
      calculateScores (.obj fs) = .ok r →
      validateCalculatedScores (.obj fs) st = .ok st) ∧
    (∀ (fs : List (String × JValue)) (st : VState) (q o : ℚ),
      lookupF fs "scorePercent" = some (.num q) → q ≠ 0 →
      calculateScores (.obj fs) = .ok (some o) →
      (1 < |q - o| →
        validateCalculatedScores (.obj fs) st = .ok
          ⟨st.errors, st.warnings ++
            ["⚠️  WARNING: " ++ ("Overall scorePercent (" ++ displayVal (some (.num q)) ++
              ") differs from calculated value (" ++ toFixed1 (some o) ++ ")")]⟩) ∧
      (¬(1 < |q - o|) → validateCalculatedScores (.obj fs) st = .ok st)) ∧
    calculateScores (.obj [("areaScores", .arr [
      .obj [("scoreEntries", .arr [.obj [("scorePercent", .num 0), ("scoreSuccess", .str "failure")]])],
      .obj [("scoreEntries", .arr [.obj [("scorePercent", .num 80), ("scoreSuccess", .str "success")]])],
      .obj [("scoreEntries", .arr [.obj [("scorePercent", .num 60), ("scoreSuccess", .str "partial")]])]])]) =
      .ok (some (140/3)) ∧
    calculateOverallScore [⟨1, "a", 0, []⟩, ⟨2, "b", 80, []⟩, ⟨3, "c", 60, []⟩] = 70 := by
  refine ⟨?_, ?_, ?_, ?_⟩
  · intro fs st r htr hcalc
    unfold validateCalculatedScores
    rw [hcalc]
    simp [Except.bind, getMember, htr]
  · intro fs st q o hsp hq hcalc
    have htr : truthy (some (JValue.num q)) = true := by simp [truthy, hq]
    constructor
    · intro hlt
      unfold validateCalculatedScores
      rw [hcalc]
      simp [Except.bind, getMember, hsp, htr, toNumber, toNumberJ, hlt, addWarningS]
    · intro hge
      unfold validateCalculatedScores
      rw [hcalc]
      simp [Except.bind, getMember, hsp, htr, toNumber, toNumberJ, hge]
  · simp [calculateScores, calcAreaStep, calcEntryStep, List.foldlM, getMember, lookupF,
      jsElems, isNullV, isStrV, truthy, jnumAdd, jnumAdd2, jnumDiv, toNumber, toNumberJ,
      Except.bind, Except.map, except_bind_ok]
    norm_num
  · norm_num [calculateOverallScore, List.filter, List.foldl]

/-- Witness for the amended C7 statement: a stored scorePercent of 90
against a recomputed overall of 50 draws the drift warning. -/
theorem validateCalculatedScores_amended_at_concrete :
    validateCalculatedScores
      (.obj [("scorePercent", .num 90), ("areaScores", .arr [.obj [("scoreEntries",
        .arr [.obj [("scorePercent", .num 50), ("scoreSuccess", .str "partial")]])]])])
      vEmpty = .ok
        ⟨[], ["⚠️  WARNING: " ++ ("Overall scorePercent (" ++ displayVal (some (.num 90)) ++
          ") differs from calculated value (" ++ toFixed1 (some 50) ++ ")")]⟩ := by
  have h := (validateCalculatedScores_amended.2.1
    [("scorePercent", .num 90), ("areaScores", .arr [.obj [("scoreEntries",
      .arr [.obj [("scorePercent", .num 50), ("scoreSuccess", .str "partial")]])]])]
    vEmpty 90 50 rfl (by norm_num) ?_).1 (by norm_num)
  · exact h
  · simp [calculateScores, calcAreaStep, calcEntryStep, List.foldlM, getMember, lookupF,
      jsElems, isNullV, isStrV, truthy, jnumAdd, jnumAdd2, jnumDiv, toNumber, toNumberJ,
      Except.bind, Except.map, except_bind_ok]
